import Mathlib

/-!
# Verification of the LocationService (src/LocationService/app/main.py)

Shallow embedding of the single-file FastAPI location-tracking service.
Python floats carrying coordinates and speeds are modelled as rationals;
`datetime` values are modelled as a wall-clock value (in minutes) together
with an optional timezone offset (`tzinfo`, minutes east of UTC, `none`
for a naive datetime).  The process-global dict `_LOCATION_STORE`
(orderId -> LocationSnapshot) is modelled as an association list threaded
explicitly through the two request handlers, with dict semantics:
assignment replaces the entry in place or appends a fresh one.
-/

set_option autoImplicit false

/-- Python `datetime`: a wall-clock reading `clock` (minutes) plus the
attached timezone `tzinfo` as an offset in minutes east of UTC
(`none` models a naive datetime, `some 0` models `timezone.utc`). -/
structure DateTime where
  clock : Int
  tzinfo : Option Int
deriving DecidableEq, Repr

/-- The UTC instant denoted by an aware datetime: wall clock minus the
timezone offset.  A naive datetime denotes no definite instant. -/
def DateTime.utcInstant (d : DateTime) : Option Int :=
  d.tzinfo.map (fun o => d.clock - o)

/-- `GeoPoint` (main.py lines 9-12): latitude and longitude in decimal
degrees.  The pydantic `ge`/`le` range constraints are checked by
`fieldConstraintsOk` below, exactly as pydantic checks them at parse time. -/
structure GeoPoint where
  lat : ℚ
  lng : ℚ
deriving DecidableEq, Repr

/-- `LocationUpdate` (main.py lines 16-23): incoming courier payload. -/
structure LocationUpdate where
  orderId : String
  courierId : String
  position : GeoPoint
  bearing : Option ℚ
  speedMps : Option ℚ
  timestamp : DateTime
deriving DecidableEq, Repr

/-- `LocationSnapshot` (main.py lines 34-38): the stored/output record. -/
structure LocationSnapshot where
  position : GeoPoint
  timestamp : DateTime
  etaMinutes : Option Int
deriving DecidableEq, Repr

/-- The `@validator("timestamp") ensure_timezone` hook (main.py lines
25-30): a naive datetime gets `timezone.utc` attached without shifting the
clock (`v.replace(tzinfo=timezone.utc)`); an aware datetime is converted to
the equivalent UTC instant (`v.astimezone(timezone.utc)`), whose wall clock
is the old wall clock minus the old offset. -/
def ensure_timezone (v : DateTime) : DateTime :=
  match v.tzinfo with
  | none => { v with tzinfo := some 0 }
  | some o => { clock := v.clock - o, tzinfo := some 0 }

/-- The declarative pydantic field constraints on a `LocationUpdate`:
`lat` in [-90, 90], `lng` in [-180, 180], `speedMps` (when present) ≥ 0.
`orderId`, `courierId`, `bearing` and `timestamp` carry no range constraint. -/
def fieldConstraintsOk (u : LocationUpdate) : Bool :=
  decide ((-90 : ℚ) ≤ u.position.lat) && decide (u.position.lat ≤ (90 : ℚ)) &&
  decide ((-180 : ℚ) ≤ u.position.lng) && decide (u.position.lng ≤ (180 : ℚ)) &&
  (match u.speedMps with
   | none => true
   | some s => decide ((0 : ℚ) ≤ s))

/-- Pydantic parsing of the request body: check the declared field
constraints, then run the `ensure_timezone` validator on `timestamp`.
`none` models a 422 validation rejection before the handler body runs. -/
def parseLocationUpdate (u : LocationUpdate) : Option LocationUpdate :=
  if fieldConstraintsOk u then
    some { u with timestamp := ensure_timezone u.timestamp }
  else
    none

/-- `_estimate_eta_minutes` (main.py lines 63-72): `None` when speed is
missing or ≤ 0, otherwise the constant placeholder 10. -/
def _estimate_eta_minutes (speed_mps : Option ℚ) : Option Int :=
  match speed_mps with
  | none => none
  | some s => if s ≤ 0 then none else some 10

/-- The snapshot built by `post_location_update` (main.py lines 92-96)
from an already-validated update. -/
def snapshotOf (update : LocationUpdate) : LocationSnapshot :=
  { position := update.position
    timestamp := update.timestamp
    etaMinutes := _estimate_eta_minutes update.speedMps }

/-- `_LOCATION_STORE` (main.py line 60): in-memory dict
orderId -> LocationSnapshot, as an association list. -/
abbrev Store : Type := List (String × LocationSnapshot)

/-- Dict read `_LOCATION_STORE.get(orderId)`: first entry with the key. -/
def storeGet : Store → String → Option LocationSnapshot
  | [], _ => none
  | (k', v') :: rest, k => if k' = k then some v' else storeGet rest k

/-- Dict assignment `_LOCATION_STORE[orderId] = snapshot`: replace the
existing entry in place, or append a new one when the key is absent. -/
def storeSet : Store → String → LocationSnapshot → Store
  | [], k, v => [(k, v)]
  | (k', v') :: rest, k, v =>
    if k' = k then (k, v) :: rest else (k', v') :: storeSet rest k v

/-- Response body `{"status": "accepted"}` (main.py line 99). -/
structure AcceptedBody where
  status : String
deriving DecidableEq, Repr

/-- Outcome of `POST /location/updates`: either the 202 acknowledgement
produced by the handler, or the framework's 422 validation rejection. -/
inductive SubmitOutcome where
  | accepted (httpStatus : Nat) (body : AcceptedBody)
  | validationError (httpStatus : Nat)
deriving DecidableEq, Repr

/-- Outcome of `GET /location/track/{orderId}`: the 200 snapshot response,
or the `HTTPException(status_code=404, detail=...)` raised when absent. -/
inductive GetOutcome where
  | ok (httpStatus : Nat) (snapshot : LocationSnapshot)
  | notFound (httpStatus : Nat) (detail : String)
deriving DecidableEq, Repr

/-- `post_location_update` (main.py lines 75-99) together with the
framework validation step: on an invalid body the handler never runs and
the store is untouched; on a valid body the handler builds the snapshot,
overwrites the entry for `orderId`, and returns 202 with
`{"status": "accepted"}`. -/
def post_location_update (store : Store) (update : LocationUpdate) :
    Store × SubmitOutcome :=
  match parseLocationUpdate update with
  | none => (store, .validationError 422)
  | some u =>
    let snapshot := snapshotOf u
    (storeSet store u.orderId snapshot, .accepted 202 ⟨"accepted"⟩)

/-- `get_latest_location` (main.py lines 109-123).  A pydantic model
instance is always truthy, so `if not snapshot` fires exactly when
`_LOCATION_STORE.get(orderId)` returned `None`. -/
def get_latest_location (store : Store) (orderId : String) :
    Store × GetOutcome :=
  match storeGet store orderId with
  | none => (store, .notFound 404 "Location not found for orderId")
  | some snapshot => (store, .ok 200 snapshot)

/-- One request against the service: either of the two endpoints, with the
store it leaves behind. -/
inductive Step : Store → Store → Prop where
  | submit (s : Store) (u : LocationUpdate) :
      Step s (post_location_update s u).1
  | getLatest (s : Store) (k : String) :
      Step s (get_latest_location s k).1

/-- Stores reachable from the empty initial store by any request sequence. -/
inductive Reachable : Store → Prop where
  | init : Reachable []
  | step (s s' : Store) : Reachable s → Step s s' → Reachable s'

/-! ## Helper lemmas about the store and the parsing step -/

theorem storeGet_storeSet_self (s : Store) (k : String) (v : LocationSnapshot) :
    storeGet (storeSet s k v) k = some v := by
  induction s with
  | nil => simp [storeSet, storeGet]
  | cons p rest ih =>
    obtain ⟨ka, va⟩ := p
    by_cases h : ka = k
    · simp [storeSet, h, storeGet]
    · simp [storeSet, h, storeGet, ih]

theorem storeGet_storeSet_ne (s : Store) (k : String) (v : LocationSnapshot)
    (k' : String) (hne : k' ≠ k) :
    storeGet (storeSet s k v) k' = storeGet s k' := by
  induction s with
  | nil => simp [storeSet, storeGet, hne.symm]
  | cons p rest ih =>
    obtain ⟨ka, va⟩ := p
    by_cases h : ka = k
    · subst h
      simp [storeSet, storeGet, hne.symm]
    · simp [storeSet, storeGet, h, ih]

theorem storeSet_storeSet_same (s : Store) (k : String) (v w : LocationSnapshot) :
    storeSet (storeSet s k v) k w = storeSet s k w := by
  induction s with
  | nil => simp [storeSet]
  | cons p rest ih =>
    obtain ⟨ka, va⟩ := p
    by_cases h : ka = k <;> simp [storeSet, h, ih]

theorem mem_map_fst_storeSet (s : Store) (k : String) (v : LocationSnapshot)
    (a : String) :
    a ∈ (storeSet s k v).map Prod.fst ↔ a = k ∨ a ∈ s.map Prod.fst := by
  induction s with
  | nil => simp [storeSet]
  | cons p rest ih =>
    obtain ⟨ka, va⟩ := p
    by_cases h : ka = k
    · subst h
      simp [storeSet]
    · simp [storeSet, h, ih]
      tauto

theorem nodup_map_fst_storeSet (s : Store) (k : String) (v : LocationSnapshot)
    (h : (s.map Prod.fst).Nodup) :
    ((storeSet s k v).map Prod.fst).Nodup := by
  induction s with
  | nil => simp [storeSet]
  | cons p rest ih =>
    obtain ⟨ka, va⟩ := p
    rw [List.map_cons, List.nodup_cons] at h
    obtain ⟨h1, h2⟩ := h
    by_cases hk : ka = k
    · subst hk
      rw [show storeSet ((ka, va) :: rest) ka v = (ka, v) :: rest from
        by simp [storeSet], List.map_cons, List.nodup_cons]
      exact ⟨h1, h2⟩
    · rw [show storeSet ((ka, va) :: rest) k v = (ka, va) :: storeSet rest k v from
        by simp [storeSet, hk], List.map_cons, List.nodup_cons]
      refine ⟨fun hmem => ?_, ih h2⟩
      rcases (mem_map_fst_storeSet rest k v ka).1 hmem with h' | h'
      · exact hk h'
      · exact h1 h'

theorem isSome_storeGet_storeSet (s : Store) (k : String) (v : LocationSnapshot)
    (k' : String) (h : (storeGet s k').isSome) :
    (storeGet (storeSet s k v) k').isSome := by
  by_cases hk : k' = k
  · subst hk
    rw [storeGet_storeSet_self]
    rfl
  · rw [storeGet_storeSet_ne s k v k' hk]
    exact h

theorem parseLocationUpdate_eq_some_iff (u v : LocationUpdate) :
    parseLocationUpdate u = some v ↔
      (fieldConstraintsOk u = true ∧
       v = { u with timestamp := ensure_timezone u.timestamp }) := by
  unfold parseLocationUpdate
  by_cases h : fieldConstraintsOk u <;> simp [h, eq_comm]

theorem fieldConstraintsOk_eq_true_iff (u : LocationUpdate) :
    fieldConstraintsOk u = true ↔
      ((-90 : ℚ) ≤ u.position.lat ∧ u.position.lat ≤ 90 ∧
       (-180 : ℚ) ≤ u.position.lng ∧ u.position.lng ≤ 180 ∧
       ∀ sp, u.speedMps = some sp → (0 : ℚ) ≤ sp) := by
  unfold fieldConstraintsOk
  cases h : u.speedMps <;> simp [h, and_assoc]

theorem parse_preserves_fields (u v : LocationUpdate)
    (h : parseLocationUpdate u = some v) :
    v.orderId = u.orderId ∧ v.courierId = u.courierId ∧
    v.position = u.position ∧ v.speedMps = u.speedMps ∧
    v.timestamp = ensure_timezone u.timestamp := by
  have hv := ((parseLocationUpdate_eq_some_iff u v).1 h).2
  subst hv
  exact ⟨rfl, rfl, rfl, rfl, rfl⟩

theorem post_location_update_parse_some (s : Store) (u v : LocationUpdate)
    (h : parseLocationUpdate u = some v) :
    post_location_update s u =
      (storeSet s u.orderId (snapshotOf v),
       SubmitOutcome.accepted 202 ⟨"accepted"⟩) := by
  have hv := ((parseLocationUpdate_eq_some_iff u v).1 h).2
  unfold post_location_update
  rw [h]
  subst hv
  rfl

theorem post_location_update_parse_none (s : Store) (u : LocationUpdate)
    (h : parseLocationUpdate u = none) :
    post_location_update s u = (s, SubmitOutcome.validationError 422) := by
  unfold post_location_update
  rw [h]

theorem get_latest_location_fst (s : Store) (k : String) :
    (get_latest_location s k).1 = s := by
  unfold get_latest_location
  cases storeGet s k <;> rfl

theorem step_preserves_invariant (s s' : Store) (hstep : Step s s') :
    ((s.map Prod.fst).Nodup → (s'.map Prod.fst).Nodup) ∧
    (∀ k, (storeGet s k).isSome → (storeGet s' k).isSome) := by
  cases hstep with
  | submit u =>
    cases hp : parseLocationUpdate u with
    | none =>
      rw [post_location_update_parse_none s u hp]
      exact ⟨id, fun _ h => h⟩
    | some v =>
      rw [post_location_update_parse_some s u v hp]
      exact ⟨nodup_map_fst_storeSet s u.orderId (snapshotOf v),
        fun k hk => isSome_storeGet_storeSet s u.orderId (snapshotOf v) k hk⟩
  | getLatest k =>
    rw [get_latest_location_fst]
    exact ⟨id, fun _ h => h⟩

theorem reachable_nodup_keys (s : Store) (h : Reachable s) :
    (s.map Prod.fst).Nodup := by
  induction h with
  | init => simp
  | step s s' _ hstep ih => exact (step_preserves_invariant s s' hstep).1 ih

theorem reflTransGen_step_isSome (s s' : Store)
    (h : Relation.ReflTransGen Step s s') (k : String)
    (hk : (storeGet s k).isSome) : (storeGet s' k).isSome := by
  induction h with
  | refl => exact hk
  | tail hab hbc ih => exact (step_preserves_invariant _ _ hbc).2 k ih

theorem reachable_of_reflTransGen (s s' : Store) (hs : Reachable s)
    (h : Relation.ReflTransGen Step s s') : Reachable s' := by
  induction h with
  | refl => exact hs
  | tail hab hbc ih => exact Reachable.step _ _ ih hbc

/-! ## Concrete sample requests used by the witnesses

`sampleUpdate1` plays the 2024-01-01T00:00:00 naive-timestamp example
(clock 0 in minutes, no tzinfo); `sampleUpdate2` reuses the same orderId
with an older, already-UTC timestamp and a positive speed. -/

def sampleUpdate1 : LocationUpdate :=
  { orderId := "O1", courierId := "C1",
    position := { lat := 12, lng := 77 },
    bearing := none, speedMps := none,
    timestamp := { clock := 0, tzinfo := none } }

def sampleParsed1 : LocationUpdate :=
  { sampleUpdate1 with timestamp := { clock := 0, tzinfo := some 0 } }

def sampleUpdate2 : LocationUpdate :=
  { orderId := "O1", courierId := "C2",
    position := { lat := 13, lng := 78 },
    bearing := some 90, speedMps := some 5,
    timestamp := { clock := -60, tzinfo := some 0 } }

def sampleParsed2 : LocationUpdate :=
  { sampleUpdate2 with timestamp := { clock := -60, tzinfo := some 0 } }

def sampleBadUpdate : LocationUpdate :=
  { sampleUpdate1 with position := { lat := 91, lng := 0 } }

theorem get_latest_location_of_get_some (s : Store) (k : String)
    (snap : LocationSnapshot) (h : storeGet s k = some snap) :
    get_latest_location s k = (s, GetOutcome.ok 200 snap) := by
  unfold get_latest_location
  rw [h]

theorem get_latest_location_of_get_none (s : Store) (k : String)
    (h : storeGet s k = none) :
    get_latest_location s k =
      (s, GetOutcome.notFound 404 "Location not found for orderId") := by
  unfold get_latest_location
  rw [h]

/-! ## The claims -/

/-- C1: for two valid updates U1 then U2 on the same orderId, submitted in
that arrival order (the timestamps play no role), `getLatest(orderId)`
afterwards returns exactly the snapshot built from U2, and the store holds
U2's snapshot in place of U1's: full replacement, not a merge. -/
theorem submit_overwrites_last_write_wins (s : Store)
    (u1 u2 v1 v2 : LocationUpdate)
    (h1 : parseLocationUpdate u1 = some v1)
    (h2 : parseLocationUpdate u2 = some v2)
    (horder : u2.orderId = u1.orderId) :
    (get_latest_location
        (post_location_update (post_location_update s u1).1 u2).1
        u2.orderId).2 = GetOutcome.ok 200 (snapshotOf v2) ∧
    (post_location_update (post_location_update s u1).1 u2).1 =
      storeSet s u1.orderId (snapshotOf v2) := by
  have s1def : (post_location_update s u1).1 =
      storeSet s u1.orderId (snapshotOf v1) := by
    rw [post_location_update_parse_some s u1 v1 h1]
  have s2def : (post_location_update (post_location_update s u1).1 u2).1 =
      storeSet (post_location_update s u1).1 u2.orderId (snapshotOf v2) := by
    rw [post_location_update_parse_some _ u2 v2 h2]
  rw [s2def, s1def, horder, storeSet_storeSet_same]
  refine ⟨?_, rfl⟩
  rw [get_latest_location_of_get_some _ _ _
    (storeGet_storeSet_self s u1.orderId (snapshotOf v2))]

/-- C1 witness: two concrete valid updates for "O1"; the second (with an
older timestamp) wins. -/
theorem submit_overwrites_last_write_wins_witness :
    (get_latest_location
        (post_location_update (post_location_update [] sampleUpdate1).1
          sampleUpdate2).1
        sampleUpdate2.orderId).2 = GetOutcome.ok 200 (snapshotOf sampleParsed2) ∧
    (post_location_update (post_location_update [] sampleUpdate1).1
        sampleUpdate2).1 =
      storeSet [] sampleUpdate1.orderId (snapshotOf sampleParsed2) :=
  submit_overwrites_last_write_wins [] sampleUpdate1 sampleUpdate2
    sampleParsed1 sampleParsed2 (by decide) (by decide) (by decide)

/-- C2: for every valid update, the stored `etaMinutes` is the constant 10
whenever `speedMps` is supplied and strictly positive, and `null` when
`speedMps` is omitted or zero. -/
theorem eta_placeholder_constant (u v : LocationUpdate)
    (h : parseLocationUpdate u = some v) :
    (∀ sp, u.speedMps = some sp → (0 : ℚ) < sp →
        (snapshotOf v).etaMinutes = some 10) ∧
    (u.speedMps = none → (snapshotOf v).etaMinutes = none) ∧
    (u.speedMps = some 0 → (snapshotOf v).etaMinutes = none) := by
  obtain ⟨-, -, -, hsp, -⟩ := parse_preserves_fields u v h
  refine ⟨fun sp hspeq hpos => ?_, fun hnone => ?_, fun hzero => ?_⟩
  · simp [snapshotOf, _estimate_eta_minutes, hsp, hspeq, not_le.mpr hpos]
  · simp [snapshotOf, _estimate_eta_minutes, hsp, hnone]
  · simp [snapshotOf, _estimate_eta_minutes, hsp, hzero]

/-- C2 witness: speed 5 gives etaMinutes 10, speed omitted gives null
(evaluated through the theorem at concrete updates). -/
theorem eta_placeholder_constant_witness :
    (snapshotOf sampleParsed2).etaMinutes = some 10 ∧
    (snapshotOf sampleParsed1).etaMinutes = none :=
  ⟨(eta_placeholder_constant sampleUpdate2 sampleParsed2 (by decide)).1
      5 (by decide) (by decide),
   (eta_placeholder_constant sampleUpdate1 sampleParsed1 (by decide)).2.1
      (by decide)⟩

/-- C3: `getLatest` answers 404 with detail "Location not found for
orderId" exactly when no snapshot is stored for the orderId, and answers
200 with the stored snapshot when one is present. -/
theorem get_latest_notfound_iff (s : Store) (k : String) :
    ((get_latest_location s k).2 =
        GetOutcome.notFound 404 "Location not found for orderId" ↔
      storeGet s k = none) ∧
    (∀ snap, storeGet s k = some snap →
      (get_latest_location s k).2 = GetOutcome.ok 200 snap) := by
  refine ⟨⟨fun hout => ?_, fun hnone => ?_⟩, fun snap hsome => ?_⟩
  · cases hsg : storeGet s k with
    | none => rfl
    | some snap =>
      rw [get_latest_location_of_get_some s k snap hsg] at hout
      exact absurd hout (by simp)
  · rw [get_latest_location_of_get_none s k hnone]
  · rw [get_latest_location_of_get_some s k snap hsome]

/-- C3 witness: on a store holding only "O1", tracking "O1" returns the
snapshot with 200, and tracking the never-submitted "O2" returns the 404
outcome (both via the theorem). -/
theorem get_latest_notfound_iff_witness :
    (get_latest_location [("O1", snapshotOf sampleParsed1)] "O1").2 =
      GetOutcome.ok 200 (snapshotOf sampleParsed1) ∧
    (get_latest_location [("O1", snapshotOf sampleParsed1)] "O2").2 =
      GetOutcome.notFound 404 "Location not found for orderId" :=
  ⟨(get_latest_notfound_iff [("O1", snapshotOf sampleParsed1)] "O1").2
      (snapshotOf sampleParsed1) (by decide),
   (get_latest_notfound_iff [("O1", snapshotOf sampleParsed1)] "O2").1.2
      (by decide)⟩

/-- C4: for every accepted update, the stored timestamp is normalized to
UTC: it equals `ensure_timezone` of the submitted timestamp; a naive
timestamp keeps its clock value and merely gets the UTC zone attached; an
aware timestamp ends up in the UTC zone denoting the same instant. -/
theorem timestamp_normalized_utc (u v : LocationUpdate)
    (h : parseLocationUpdate u = some v) :
    (snapshotOf v).timestamp = ensure_timezone u.timestamp ∧
    (u.timestamp.tzinfo = none →
      (snapshotOf v).timestamp =
        { clock := u.timestamp.clock, tzinfo := some 0 }) ∧
    (∀ o, u.timestamp.tzinfo = some o →
      (snapshotOf v).timestamp.tzinfo = some 0 ∧
      (snapshotOf v).timestamp.utcInstant = u.timestamp.utcInstant) := by
  obtain ⟨-, -, -, -, hts⟩ := parse_preserves_fields u v h
  have hsnap : (snapshotOf v).timestamp = v.timestamp := rfl
  refine ⟨hsnap.trans hts, fun hnone => ?_, fun o ho => ?_⟩
  · rw [hsnap, hts]
    simp [ensure_timezone, hnone]
  · rw [hsnap, hts]
    constructor
    · simp [ensure_timezone, ho]
    · simp [ensure_timezone, ho, DateTime.utcInstant]

/-- C4 witness: the naive clock-0 timestamp (2024-01-01T00:00:00) is
stored as the same clock value with the UTC zone attached. -/
theorem timestamp_normalized_utc_witness :
    (snapshotOf sampleParsed1).timestamp =
      { clock := sampleUpdate1.timestamp.clock, tzinfo := some 0 } :=
  (timestamp_normalized_utc sampleUpdate1 sampleParsed1 (by decide)).2.1 rfl

/-- C5: an update is rejected by validation exactly when its latitude
leaves [-90, 90], its longitude leaves [-180, 180], or its speed is
present and negative; in particular the boundary values lat = 90 and
lng = 180 are accepted, and nothing else causes a range rejection. -/
theorem validation_rejects_iff_out_of_range (u : LocationUpdate) :
    parseLocationUpdate u = none ↔
      (u.position.lat < -90 ∨ 90 < u.position.lat ∨
       u.position.lng < -180 ∨ 180 < u.position.lng ∨
       ∃ sp, u.speedMps = some sp ∧ sp < 0) := by
  have hnone : parseLocationUpdate u = none ↔ fieldConstraintsOk u = false := by
    unfold parseLocationUpdate
    by_cases h : fieldConstraintsOk u <;> simp [h]
  have htrue := fieldConstraintsOk_eq_true_iff u
  rw [hnone]
  constructor
  · intro hf
    by_contra hd
    push_neg at hd
    obtain ⟨hd1, hd2, hd3, hd4, hd5⟩ := hd
    have hok : fieldConstraintsOk u = true :=
      htrue.2 ⟨hd1, hd2, hd3, hd4, fun sp hsp => hd5 sp hsp⟩
    rw [hok] at hf
    exact Bool.noConfusion hf
  · intro hd
    cases hcon : fieldConstraintsOk u
    · rfl
    · exfalso
      obtain ⟨hl1, hl2, hg1, hg2, hsp⟩ := htrue.1 hcon
      rcases hd with h | h | h | h | ⟨sp, hspeq, hlt⟩
      · exact absurd hl1 (not_le.mpr h)
      · exact absurd hl2 (not_le.mpr h)
      · exact absurd hg1 (not_le.mpr h)
      · exact absurd hg2 (not_le.mpr h)
      · exact absurd (hsp sp hspeq) (not_le.mpr hlt)

/-- C6: every update that passes field validation is accepted with 202 and
body {"status": "accepted"} regardless of the current store contents; the
new store is exactly the old one with the snapshot written under the
update's orderId (readable there, all other keys untouched). -/
theorem submit_valid_accepted (s : Store) (u v : LocationUpdate)
    (h : parseLocationUpdate u = some v) :
    (post_location_update s u).2 =
      SubmitOutcome.accepted 202 ⟨"accepted"⟩ ∧
    (post_location_update s u).1 = storeSet s u.orderId (snapshotOf v) ∧
    storeGet (post_location_update s u).1 u.orderId = some (snapshotOf v) ∧
    (∀ k, k ≠ u.orderId →
      storeGet (post_location_update s u).1 k = storeGet s k) := by
  rw [post_location_update_parse_some s u v h]
  exact ⟨rfl, rfl, storeGet_storeSet_self s u.orderId (snapshotOf v),
    fun k hk => storeGet_storeSet_ne s u.orderId (snapshotOf v) k hk⟩

/-- C6 witness: submitting a valid update onto a store that already holds
its orderId still answers 202 accepted. -/
theorem submit_valid_accepted_witness :
    (post_location_update [("O1", snapshotOf sampleParsed1)]
        sampleUpdate2).2 = SubmitOutcome.accepted 202 ⟨"accepted"⟩ :=
  (submit_valid_accepted [("O1", snapshotOf sampleParsed1)]
    sampleUpdate2 sampleParsed2 (by decide)).1

/-- C7: a submission that fails validation leaves the store completely
unchanged (no partial write, for any key) and yields the validation-error
outcome. -/
theorem submit_invalid_no_write (s : Store) (u : LocationUpdate)
    (h : parseLocationUpdate u = none) :
    (post_location_update s u).1 = s ∧
    (post_location_update s u).2 = SubmitOutcome.validationError 422 := by
  rw [post_location_update_parse_none s u h]
  exact ⟨rfl, rfl⟩

/-- C7 witness: the lat = 91 update is rejected and writes nothing. -/
theorem submit_invalid_no_write_witness :
    (post_location_update [("O1", snapshotOf sampleParsed1)]
        sampleBadUpdate).1 = [("O1", snapshotOf sampleParsed1)] ∧
    (post_location_update [("O1", snapshotOf sampleParsed1)]
        sampleBadUpdate).2 = SubmitOutcome.validationError 422 :=
  submit_invalid_no_write [("O1", snapshotOf sampleParsed1)]
    sampleBadUpdate (by decide)

/-- C8: in every reachable store the keys are pairwise distinct (at most
one snapshot per orderId), and once a snapshot exists for an orderId no
later sequence of requests removes it: `getLatest` still answers 200 with
some snapshot in every later state. -/
theorem store_keys_unique_and_monotone (s s' : Store)
    (hs : Reachable s) (hsteps : Relation.ReflTransGen Step s s')
    (k : String) (hk : (storeGet s k).isSome) :
    (s'.map Prod.fst).Nodup ∧
    ∃ snap, (get_latest_location s' k).2 = GetOutcome.ok 200 snap := by
  have hs' : Reachable s' := reachable_of_reflTransGen s s' hs hsteps
  have hk' : (storeGet s' k).isSome := reflTransGen_step_isSome s s' hsteps k hk
  refine ⟨reachable_nodup_keys s' hs', ?_⟩
  obtain ⟨snap, hsnap⟩ := Option.isSome_iff_exists.mp hk'
  exact ⟨snap, by rw [get_latest_location_of_get_some s' k snap hsnap]⟩

/-- C8 witness: after one concrete submit for "O1" the keys are distinct
and "O1" is served. -/
theorem store_keys_unique_and_monotone_witness :
    (((post_location_update [] sampleUpdate1).1).map Prod.fst).Nodup ∧
    ∃ snap,
      (get_latest_location (post_location_update [] sampleUpdate1).1
        "O1").2 = GetOutcome.ok 200 snap :=
  store_keys_unique_and_monotone (post_location_update [] sampleUpdate1).1
    (post_location_update [] sampleUpdate1).1
    (Reachable.step [] _ Reachable.init (Step.submit [] sampleUpdate1))
    Relation.ReflTransGen.refl "O1" (by decide)

/-- C9: `getLatest` never changes the store, whether it finds a snapshot
or answers not-found. -/
theorem get_latest_pure_read (s : Store) (k : String) :
    (get_latest_location s k).1 = s := by
  unfold get_latest_location
  cases storeGet s k <;> rfl

/-- C10: a valid submit for one orderId leaves the entry (or absence) of
every other orderId exactly as it was. -/
theorem submit_frame_other_keys (s : Store) (u v : LocationUpdate)
    (k : String) (h : parseLocationUpdate u = some v)
    (hk : k ≠ u.orderId) :
    storeGet (post_location_update s u).1 k = storeGet s k := by
  rw [post_location_update_parse_some s u v h]
  exact storeGet_storeSet_ne s u.orderId (snapshotOf v) k hk

/-- C10 witness: submitting for "O1" does not disturb the entry stored
under "O2". -/
theorem submit_frame_other_keys_witness :
    storeGet (post_location_update [("O2", snapshotOf sampleParsed2)]
        sampleUpdate1).1 "O2" =
      storeGet [("O2", snapshotOf sampleParsed2)] "O2" :=
  submit_frame_other_keys [("O2", snapshotOf sampleParsed2)]
    sampleUpdate1 sampleParsed1 "O2" (by decide) (by decide)
